import Mathlib

/-!
Verification development for the PurrPal chatbot request pipeline
(`src/utils.js`, `src/chatbot.js`, `src/config.js`).

The JavaScript source is shallowly embedded: JS strings are Lean `String`s
manipulated through their character lists (the inputs of interest are ASCII,
where JS UTF-16 code-unit semantics and Lean character semantics agree),
timestamps in milliseconds are `Int`, JS floating-point numbers that are the
result of divisions (the metrics running average) are `ℚ` (all traces examined
stay in the range where IEEE doubles are exact; the one divergence, division by
zero, is noted at the definition), and the in-memory `Map` stores are
association lists with `Map.set`/`Map.get`/`Map.delete` semantics.  The
external Vertex AI model call is an oracle parameter (`ModelOutcome` /
`StreamOutcome`), and the MD5 digest from the `crypto` library is an arbitrary
function parameter `hash : String → String` (no proved property depends on the
internals of the digest).
-/

/-! ## Association-list model of the JS `Map` stores -/

/-- Model of `Map.get`: value of the first (under `Map` semantics, only) entry with the
given key. -/
def alLookup {α : Type} : List (String × α) → String → Option α
  | [], _ => none
  | p :: rest, k => if p.1 = k then some p.2 else alLookup rest k

/-- Model of `Map.set`: replace the entry in place when the key is present, otherwise
append a fresh entry. -/
def alInsert {α : Type} : List (String × α) → String → α → List (String × α)
  | [], k, v => [(k, v)]
  | p :: rest, k, v => if p.1 = k then (k, v) :: rest else p :: alInsert rest k v

/-- Model of `Map.delete`: remove the entry with the given key. -/
def alErase {α : Type} : List (String × α) → String → List (String × α)
  | [], _ => []
  | p :: rest, k => if p.1 = k then rest else p :: alErase rest k

/-! ## JS string helpers (`trim`, `toLowerCase`, regex replacements) -/

/-- The whitespace recognized by the JS `\s` class and `String.prototype.trim`,
restricted to the ASCII range used throughout this development. -/
def isJsWs (c : Char) : Bool :=
  c = ' ' || c = '\t' || c = '\n' || c = '\r' || c = Char.ofNat 11 || c = Char.ofNat 12

/-- Model of `String.prototype.trim`. -/
def jsTrim (s : String) : String :=
  String.mk (((s.data.dropWhile isJsWs).reverse.dropWhile isJsWs).reverse)

/-- Model of `String.prototype.toLowerCase` (ASCII range). -/
def jsToLower (s : String) : String := String.mk (s.data.map Char.toLower)

/-- Model of `.replace(/\s+/g, ' ')`: each maximal whitespace run becomes one space.
The `Bool` flag records whether the previous character was part of a run. -/
def collapseWsAux : Bool → List Char → List Char
  | _, [] => []
  | prevWs, c :: rest =>
    if isJsWs c then
      if prevWs then collapseWsAux true rest else ' ' :: collapseWsAux true rest
    else c :: collapseWsAux false rest

def collapseWs (s : String) : String := String.mk (collapseWsAux false s.data)

/-- Model of `String.prototype.includes` (substring containment). -/
def strContains (hay needle : String) : Bool :=
  go needle.data hay.data
where
  go (n : List Char) : List Char → Bool
    | [] => n.isEmpty
    | c :: t => n.isPrefixOf (c :: t) || go n t

/-! ## Configuration (`src/config.js`, defaults of the environment schema) -/

structure Config where
  cacheEnabled : Bool := true
  cacheTtlMinutes : Int := 30
  rateLimitRequests : Nat := 100
  rateLimitWindowMinutes : Int := 15
  maxInputLength : Nat := 2000
  blockSuspiciousContent : Bool := true
  enableMetrics : Bool := true
  emergencyKeywords : List String :=
    ["tidak bernapas", "kejang", "pingsan", "darah", "keracunan",
     "tidak sadar", "muntah darah", "diare berdarah", "lemas sekali",
     "emergency", "urgent", "gawat darurat"]
  seriousSymptoms : List String :=
    ["tidak mau makan", "tidak minum", "demam tinggi", "sesak napas",
     "muntah terus", "diare parah", "bengkak", "luka parah"]
deriving Repr, DecidableEq

/-- The configuration produced from the documented environment defaults. -/
def defaultConfig : Config := {}

def windowMsOf (cfg : Config) : Int := cfg.rateLimitWindowMinutes * 60 * 1000

def ttlMsOf (cfg : Config) : Int := cfg.cacheTtlMinutes * 60 * 1000

/-! ## InputValidator (`src/utils.js`) -/

/-- The character denylist of `sanitizeInput`: `/[<>\"'%;()&+]/g`. -/
def isXssChar (c : Char) : Bool :=
  c = '<' || c = '>' || c = Char.ofNat 34 || c = Char.ofNat 39 || c = '%' ||
  c = ';' || c = '(' || c = ')' || c = '&' || c = '+'

/-- The control characters stripped by `sanitizeInput`:
`/[\x00-\x08\x0B\x0C\x0E-\x1F\x7F]/g`. -/
def isStrippedControl (c : Char) : Bool :=
  c.toNat ≤ 8 || c.toNat = 11 || c.toNat = 12 ||
  (14 ≤ c.toNat && c.toNat ≤ 31) || c.toNat = 127

/-- Model of `InputValidator.sanitizeInput`: truncate to the configured maximum, trim,
strip the denylist, collapse whitespace runs, strip control characters. -/
def sanitizeInput (cfg : Config) (input : String) : String :=
  let truncated :=
    if input.data.length > cfg.maxInputLength then String.mk (input.data.take cfg.maxInputLength)
    else input
  String.mk
    (((collapseWsAux false
        ((jsTrim truncated).data.filter (fun c => !(isXssChar c)))).filter
      (fun c => !(isStrippedControl c))))

def suspiciousPatterns : List String :=
  ["script", "javascript", "vbscript", "onload", "onerror",
   "alert(", "document.", "window."]

/-- The suspicious-content check of `validateInput`: each pattern is a
case-insensitive substring test on the raw input. -/
def hasSuspicious (raw : String) : Bool :=
  suspiciousPatterns.any (fun p => strContains (jsToLower raw) p)

def notTextMessage : String := "Input harus berupa teks"
def tooShortMessage : String := "Pertanyaan terlalu pendek, minimal 3 karakter"
def tooLongMessage (maxLen : Nat) : String :=
  "Pertanyaan terlalu panjang, maksimal " ++ toString maxLen ++ " karakter"
def suspiciousMessage : String := "Input mengandung konten yang tidak diizinkan"

structure ValidationResult where
  isValid : Bool
  errors : List String
  sanitizedInput : Option String
deriving Repr, DecidableEq

/-- Model of `InputValidator.validateInput`.  The raw caller argument is `Option String`
(`none` models `undefined`/non-string input, which is falsy and stringifies to
`"undefined"` inside `RegExp.test`).  Note that the length guards are on the
raw, untrimmed length, and are preceded by the JS truthiness test `input &&`
(the empty string is falsy). -/
def validateInput (cfg : Config) (input : Option String) : ValidationResult :=
  let truthy : Bool := match input with
    | none => false
    | some s => !(s.data.isEmpty)
  let raw := input.getD ""
  let testTarget : String := match input with
    | none => "undefined"
    | some s => s
  let errors : List String :=
    (if truthy = false then [notTextMessage] else []) ++
    (if truthy = true ∧ raw.data.length < 3 then [tooShortMessage] else []) ++
    (if truthy = true ∧ raw.data.length > cfg.maxInputLength then
       [tooLongMessage cfg.maxInputLength] else []) ++
    (if cfg.blockSuspiciousContent = true ∧ hasSuspicious testTarget = true then
       [suspiciousMessage] else [])
  { isValid := errors.isEmpty
    errors := errors
    sanitizedInput := if errors.isEmpty then some (sanitizeInput cfg raw) else none }

/-! ## MetricsCollector (`src/utils.js`) -/

structure Metrics where
  totalRequests : Nat
  successfulRequests : Nat
  failedRequests : Nat
  cacheHits : Nat
  cacheMisses : Nat
  averageResponseTime : ℚ
  emergencyDetections : Nat
  seriousConditionDetections : Nat
deriving Repr, DecidableEq

/-- The metrics record after `resetMetrics` (all fields zero). -/
def metricsInit : Metrics := ⟨0, 0, 0, 0, 0, 0, 0, 0⟩

/-- Model of `MetricsCollector.recordRequest`.  Faithful to the source: the
running-average update is applied on *every* recorded request, with
`totalSuccessful` read after the conditional increments.  JS floating point is
modeled by `ℚ`; the one divergence is division by zero (`totalSuccessful = 0`,
reachable only by recording a failure before any success), where JS produces
`Infinity`/`NaN` and `ℚ` produces `0` — no theorem below relies on that case. -/
def recordRequest (enableMetrics : Bool) (m : Metrics) (success : Bool)
    (responseTime : ℚ) (cached : Bool) (urgencyLevel : String) : Metrics :=
  if enableMetrics = false then m else
  let m1 := { m with totalRequests := m.totalRequests + 1 }
  let m2 :=
    if success then { m1 with successfulRequests := m1.successfulRequests + 1 }
    else { m1 with failedRequests := m1.failedRequests + 1 }
  let m3 :=
    if cached then { m2 with cacheHits := m2.cacheHits + 1 }
    else { m2 with cacheMisses := m2.cacheMisses + 1 }
  let totalSuccessful : ℚ := (m3.successfulRequests : ℚ)
  let m4 := { m3 with
    averageResponseTime :=
      (m3.averageResponseTime * (totalSuccessful - 1) + responseTime) / totalSuccessful }
  if urgencyLevel = "emergency" then
    { m4 with emergencyDetections := m4.emergencyDetections + 1 }
  else if urgencyLevel = "serious" then
    { m4 with seriousConditionDetections := m4.seriousConditionDetections + 1 }
  else m4

/-! ## RateLimiter (`src/utils.js`) -/

structure RateResult where
  allowed : Bool
  remaining : Int
  resetTime : Int
deriving Repr, DecidableEq

/-- The pruning step of `checkRateLimit`:
`requests.filter(timestamp => now - timestamp < windowMs)`. -/
def pruneWindow (windowMs now : Int) (ts : List Int) : List Int :=
  ts.filter (fun t => now - t < windowMs)

/-- Model of `RateLimiter.checkRateLimit` over the per-identifier timestamp store.
Rejection reads `validRequests[0]`; the JS expression would be `NaN` on an
empty list, which is unreachable for the validated configuration range
(`maxRequests ≥ 1`), and is modeled by `headD 0`. -/
def checkRateLimit (cfg : Config) (store : List (String × List Int))
    (identifier : String) (now : Int) : RateResult × List (String × List Int) :=
  let windowMs := windowMsOf cfg
  let requests := (alLookup store identifier).getD []
  let validRequests := pruneWindow windowMs now requests
  if validRequests.length ≥ cfg.rateLimitRequests then
    ({ allowed := false, remaining := 0, resetTime := validRequests.headD 0 + windowMs },
     alInsert store identifier validRequests)
  else
    ({ allowed := true
       remaining := (cfg.rateLimitRequests : Int) - ((validRequests.length : Int) + 1)
       resetTime := now + windowMs },
     alInsert store identifier (validRequests ++ [now]))

/-- Iterated checks for one identifier at a fixed instant, starting from the
empty store (used to express the window-exhaustion scenario of C7). -/
def repeatChecks (cfg : Config) (identifier : String) (t : Int) : Nat → List (String × List Int)
  | 0 => []
  | n + 1 => (checkRateLimit cfg (repeatChecks cfg identifier t n) identifier t).2

/-! ## ResponseFormatter (`src/utils.js`) -/

/-- The response envelope.  JS objects are open records; the envelope is
modeled with one field per property any pipeline path can attach, `none`
standing for an absent property. -/
structure Envelope where
  success : Bool
  message : String
  timestamp : Int
  source : Option String := none
  urgencyLevel : Option String := none
  cached : Option Bool := none
  responseTimeMs : Option Int := none
  recommendations : Option (List String) := none
  errorId : Option Nat := none
  suggestions : Option (List String) := none
  streaming : Option Bool := none
deriving Repr, DecidableEq

/-- The metadata argument of `formatResponse` as built by the orchestrator
call sites. -/
structure RespMeta where
  urgencyLevel : Option String := none
  cached : Option Bool := none
  responseTime : Option Int := none
  sessionId : Option String := none
  streaming : Option Bool := none
deriving Repr, DecidableEq

def emergencyRecommendations : List String :=
  ["Segera bawa kucing ke dokter hewan terdekat",
   "Jangan tunda penanganan medis",
   "Hubungi klinik hewan untuk konsultasi darurat"]

def seriousRecommendations : List String :=
  ["Konsultasikan dengan dokter hewan dalam 24-48 jam",
   "Monitor kondisi kucing secara berkala",
   "Catat perubahan gejala untuk dilaporkan ke dokter"]

/-- Model of `ResponseFormatter.formatResponse`.  Note which metadata properties are
copied onto the envelope: `urgencyLevel` (when truthy), `cached` (when true),
`responseTime` (when nonzero, JS `0` being falsy), and the urgency-keyed
recommendation lists.  `metadata.sessionId` and `metadata.streaming` are
*not* copied. -/
def formatResponse (now : Int) (response : String) (md : RespMeta) : Envelope :=
  let base : Envelope :=
    { success := true, message := jsTrim response, timestamp := now,
      source := some "purrpal-ai" }
  let base := match md.urgencyLevel with
    | some u => if u = "" then base else { base with urgencyLevel := some u }
    | none => base
  let base := if md.cached = some true then { base with cached := some true } else base
  let base := match md.responseTime with
    | some r => if r = 0 then base else { base with responseTimeMs := some r }
    | none => base
  if md.urgencyLevel = some "emergency" then
    { base with recommendations := some emergencyRecommendations }
  else if md.urgencyLevel = some "serious" then
    { base with recommendations := some seriousRecommendations }
  else base

def genericFailureMessage : String :=
  "Maaf, saya sedang mengalami gangguan teknis. Silakan coba lagi dalam beberapa saat atau hubungi dokter hewan jika ini adalah kondisi darurat."

def failureSuggestions : List String :=
  ["Coba ulangi pertanyaan Anda",
   "Periksa koneksi internet Anda",
   "Jika darurat, segera hubungi dokter hewan terdekat"]

/-- Model of `ResponseFormatter.createErrorResponse`: the generic failure envelope.
The generated UUID correlation identifier is threaded in as a `Nat`. -/
def createErrorResponse (now : Int) (errId : Nat) : Envelope :=
  { success := false, message := genericFailureMessage, timestamp := now,
    errorId := some errId, suggestions := some failureSuggestions }

/-! ## CacheManager (`src/utils.js`) -/

/-- The normalization inside `generateCacheKey`:
`input.toLowerCase().trim().replace(/\s+/g, ' ')`. -/
def normalizeKey (input : String) : String := collapseWs (jsTrim (jsToLower input))

/-- Model of `CacheManager.generateCacheKey`: the MD5 hex digest of the normalized
input.  The digest itself is an external `crypto` call, passed in as `hash`. -/
def generateCacheKey (hash : String → String) (input : String) : String :=
  hash (normalizeKey input)

/-- The two module-level maps `cache` and `cacheTimestamps`. -/
structure CacheState where
  cache : List (String × Envelope)
  timestamps : List (String × Int)
deriving Repr, DecidableEq

def emptyCacheState : CacheState := ⟨[], []⟩

/-- Model of `CacheManager.get`.  Returns the value together with the possibly mutated
state: an entry found expired is deleted as a side effect of the read.  The
guard `if (!timestamp)` is a JS truthiness test, so a stored timestamp of `0`
is treated as absent; the guard `if (cachedValue)` is always true for the
object values the pipeline stores. -/
def cacheGet (cfg : Config) (cs : CacheState) (key : String) (now : Int) :
    Option Envelope × CacheState :=
  if cfg.cacheEnabled = false then (none, cs) else
  match alLookup cs.timestamps key with
  | none => (none, cs)
  | some ts =>
    if ts = 0 then (none, cs)
    else if now - ts > ttlMsOf cfg then
      (none, ⟨alErase cs.cache key, alErase cs.timestamps key⟩)
    else
      match alLookup cs.cache key with
      | some v => (some v, cs)
      | none => (none, cs)

/-- Model of `CacheManager.cleanup`: delete every entry whose timestamp has expired.
A cache entry is deleted exactly when its key's timestamp in `cacheTimestamps`
is expired. -/
def cacheCleanup (cfg : Config) (cs : CacheState) (now : Int) : CacheState :=
  ⟨cs.cache.filter (fun p =>
      match alLookup cs.timestamps p.1 with
      | some ts => !(decide (now - ts > ttlMsOf cfg))
      | none => true),
   cs.timestamps.filter (fun p => !(decide (now - p.2 > ttlMsOf cfg)))⟩

/-- Model of `CacheManager.set`: store value and timestamp, then run the soft-cap
cleanup when the store has grown beyond 1000 entries. -/
def cacheSet (cfg : Config) (cs : CacheState) (key : String) (v : Envelope) (now : Int) :
    CacheState :=
  if cfg.cacheEnabled = false then cs else
  let cs1 : CacheState := ⟨alInsert cs.cache key v, alInsert cs.timestamps key now⟩
  if cs1.cache.length > 1000 then cacheCleanup cfg cs1 now else cs1

/-! ## Orchestrator (`src/chatbot.js`, enhanced class) -/

/-- The urgency classification embedded in `generateResponse` /
`generateStreamingResponse`: case-insensitive substring match against the
configured keyword lists, emergency taking precedence over serious. -/
def detectUrgency (cfg : Config) (sanitizedMessage : String) : String :=
  if cfg.emergencyKeywords.any (fun k => strContains (jsToLower sanitizedMessage) k) then
    "emergency"
  else if cfg.seriousSymptoms.any (fun k => strContains (jsToLower sanitizedMessage) k) then
    "serious"
  else "normal"

/-- One entry of `this.conversationHistory`. -/
structure ConversationTurn where
  lastMessage : String
  lastResponse : String
  timestamp : Int
  urgencyLevel : String
deriving Repr, DecidableEq

/-- The mutable state touched by a request: the orchestrator instance fields
plus the module-level cache, rate-limit, and metrics stores. -/
structure ChatState where
  initialized : Bool
  conv : List (String × ConversationTurn)
  cacheState : CacheState
  rateStore : List (String × List Int)
  metrics : Metrics
deriving Repr, DecidableEq

/-- The resolution of `_generateWithTimeout`: the extracted candidate text
(`ok`, already including the fixed fallback substitution for malformed or
empty provider responses), a timeout rejection, or a provider error. -/
inductive ModelOutcome where
  | ok (text : String)
  | timeout
  | providerError
deriving Repr, DecidableEq

structure GenOptions where
  useContext : Bool := false
  bypassCache : Bool := false
deriving Repr, DecidableEq

/-- The cache-miss tail of `generateResponse`: urgency detection, the
timeout-bounded model call, formatting, conditional caching (never for
emergency), conversation-history update, and metrics.  A model failure is
caught at the orchestrator boundary: metrics are recorded as failed (with the
default urgency and cached flags) and the generic failure envelope is
returned, with no further state change. -/
def missPath (cfg : Config) (S : ChatState) (sanitized key : String)
    (sessionId : Option String) (outcome : ModelOutcome) (t0 t1 : Int) (errId : Nat) :
    Envelope × ChatState :=
  let urgency := detectUrgency cfg sanitized
  match outcome with
  | .ok g =>
    let formatted := formatResponse t1 g
      { urgencyLevel := some urgency, cached := some false,
        responseTime := some (t1 - t0), sessionId := sessionId }
    let cs :=
      if urgency ≠ "emergency" ∧ cfg.cacheEnabled = true then
        cacheSet cfg S.cacheState key { formatted with urgencyLevel := some urgency } t1
      else S.cacheState
    let conv := match sessionId with
      | some sid => alInsert S.conv sid ⟨sanitized, g, t1, urgency⟩
      | none => S.conv
    (formatted,
     { S with cacheState := cs, conv := conv,
              metrics := recordRequest cfg.enableMetrics S.metrics true ((t1 - t0 : Int) : ℚ) false urgency })
  | .timeout =>
    (createErrorResponse t1 errId,
     { S with metrics := recordRequest cfg.enableMetrics S.metrics false ((t1 - t0 : Int) : ℚ) false "normal" })
  | .providerError =>
    (createErrorResponse t1 errId,
     { S with metrics := recordRequest cfg.enableMetrics S.metrics false ((t1 - t0 : Int) : ℚ) false "normal" })

/-- Model of `PurrPalChatbot.generateResponse`.  `t0` is the `Date.now()` reading at
entry (used for the rate check and the cache lookup), `t1` the reading when
the response time is computed, `errId` the correlation identifier a failure
envelope would carry, and `outcome` the resolution of the external model call.
Note that the rate-limit and validation failure paths `return` the failure
envelope directly, skipping the `catch` block and hence metrics recording. -/
def generateResponse (cfg : Config) (hash : String → String) (S : ChatState)
    (msg : Option String) (sessionId : Option String) (opts : GenOptions)
    (outcome : ModelOutcome) (t0 t1 : Int) (errId : Nat) : Envelope × ChatState :=
  if S.initialized = false then
    (createErrorResponse t1 errId,
     { S with metrics := recordRequest cfg.enableMetrics S.metrics false ((t1 - t0 : Int) : ℚ) false "normal" })
  else
    let rateResult := checkRateLimit cfg S.rateStore (sessionId.getD "anonymous") t0
    let S1 : ChatState := { S with rateStore := rateResult.2 }
    if rateResult.1.allowed = false then
      (createErrorResponse t1 errId, S1)
    else
      let validation := validateInput cfg msg
      if validation.isValid = false then
        (createErrorResponse t1 errId, S1)
      else
        let sanitized := validation.sanitizedInput.getD ""
        let key := generateCacheKey hash sanitized
        let lookup := cacheGet cfg S1.cacheState key t0
        let S2 : ChatState := { S1 with cacheState := lookup.2 }
        match lookup.1 with
        | some cv =>
          if opts.bypassCache = true then
            missPath cfg S2 sanitized key sessionId outcome t0 t1 errId
          else
            ({ cv with cached := some true, responseTimeMs := some (t1 - t0) },
             { S2 with metrics := recordRequest cfg.enableMetrics S2.metrics true ((t1 - t0 : Int) : ℚ) true (cv.urgencyLevel.getD "normal") })
        | none => missPath cfg S2 sanitized key sessionId outcome t0 t1 errId

/-- The resolution of the streaming model call: the list of extracted chunk
texts, or a stream failure (the thrown error). -/
inductive StreamOutcome where
  | chunks (parts : List String)
  | failure
deriving Repr, DecidableEq

def streamFallbackMessage : String := "Maaf, saya tidak dapat memberikan jawaban saat ini."

def concatChunks (parts : List String) : String := parts.foldl (· ++ ·) ""

/-- Model of `PurrPalChatbot.generateStreamingResponse`.  Unlike `generateResponse`,
the rate-limit and validation failures *throw*, so every failure path here
passes through the `catch` block and records metrics.  The success envelope is
built by `formatResponse` with a `streaming: true` metadata entry. -/
def generateStreamingResponse (cfg : Config) (S : ChatState) (msg : Option String)
    (sessionId : Option String) (outcome : StreamOutcome) (t0 t1 : Int) (errId : Nat) :
    Envelope × ChatState :=
  if S.initialized = false then
    (createErrorResponse t1 errId,
     { S with metrics := recordRequest cfg.enableMetrics S.metrics false ((t1 - t0 : Int) : ℚ) false "normal" })
  else
    let rateResult := checkRateLimit cfg S.rateStore (sessionId.getD "anonymous") t0
    let S1 : ChatState := { S with rateStore := rateResult.2 }
    if rateResult.1.allowed = false then
      (createErrorResponse t1 errId,
       { S1 with metrics := recordRequest cfg.enableMetrics S1.metrics false ((t1 - t0 : Int) : ℚ) false "normal" })
    else
      let validation := validateInput cfg msg
      if validation.isValid = false then
        (createErrorResponse t1 errId,
         { S1 with metrics := recordRequest cfg.enableMetrics S1.metrics false ((t1 - t0 : Int) : ℚ) false "normal" })
      else
        let sanitized := validation.sanitizedInput.getD ""
        let urgency := detectUrgency cfg sanitized
        match outcome with
        | .failure =>
          (createErrorResponse t1 errId,
           { S1 with metrics := recordRequest cfg.enableMetrics S1.metrics false ((t1 - t0 : Int) : ℚ) false "normal" })
        | .chunks parts =>
          let fullResponse := concatChunks parts
          let formatted := formatResponse t1
            (if fullResponse = "" then streamFallbackMessage else fullResponse)
            { urgencyLevel := some urgency, responseTime := some (t1 - t0),
              sessionId := sessionId, streaming := some true }
          let conv := match sessionId with
            | some sid => alInsert S1.conv sid ⟨sanitized, fullResponse, t1, urgency⟩
            | none => S1.conv
          (formatted,
           { S1 with conv := conv,
                     metrics := recordRequest cfg.enableMetrics S1.metrics true ((t1 - t0 : Int) : ℚ) false urgency })

/-- The object returned by `PurrPalChatbot.getMetrics`. -/
structure MetricsReport where
  metrics : Metrics
  activeConversations : Nat
  cacheSize : Nat
  initialized : Bool
  timestamp : Int
deriving Repr, DecidableEq

/-- Model of `PurrPalChatbot.getMetrics`.  The source computes `cacheSize` as
`CacheManager.cache?.size || 0`; the `CacheManager` class has no static
`cache` property (the `Map` is module-level in `utils.js` and never attached
to the class), so the optional chaining yields `undefined` and the reported
size is the constant `0`, regardless of the actual cache contents. -/
def getMetrics (S : ChatState) (now : Int) : MetricsReport :=
  { metrics := S.metrics
    activeConversations := S.conv.length
    cacheSize := 0
    initialized := S.initialized
    timestamp := now }

/-- The inputs of one `generateResponse` call (used to iterate requests). -/
structure RequestInput where
  msg : Option String
  sessionId : Option String
  opts : GenOptions
  outcome : ModelOutcome
  t0 : Int
  t1 : Int
  errId : Nat
deriving Repr, DecidableEq

/-- Run a sequence of `generateResponse` calls, threading the state. -/
def runRequests (cfg : Config) (hash : String → String) :
    ChatState → List RequestInput → ChatState
  | S, [] => S
  | S, r :: rs =>
    runRequests cfg hash
      (generateResponse cfg hash S r.msg r.sessionId r.opts r.outcome r.t0 r.t1 r.errId).2 rs

/-- A ready orchestrator state: initialized, with empty stores and reset
metrics. -/
def readyState : ChatState := ⟨true, [], emptyCacheState, [], metricsInit⟩

/-! ## Claim C9 (frame of model-call failures) -/

/-- Model of `cs1` holds a subset of the entries of `cs2`: nothing was added or
replaced going from `cs2` to `cs1` (entries may have been removed). -/
def cacheSubmap (cs1 cs2 : CacheState) : Prop :=
  (∀ p ∈ cs1.cache, p ∈ cs2.cache) ∧ (∀ p ∈ cs1.timestamps, p ∈ cs2.timestamps)

/-- An initialized state holding one cached entry whose timestamp (1) is long
expired by the time of the request. -/
def expiredEntryValue : Envelope :=
  formatResponse 0 "Jawaban lama" { urgencyLevel := some "normal" }

def expiredState : ChatState :=
  ⟨true, [], ⟨[("halo kucing", expiredEntryValue)], [("halo kucing", 1)]⟩, [], metricsInit⟩

/-! ## Claim C4 (no emergency response is ever cached) -/

/-- No entry of the cache store carries the emergency urgency level. -/
def noEmergencyCached (cs : CacheState) : Prop :=
  ∀ p ∈ cs.cache, p.2.urgencyLevel ≠ some "emergency"

/-! ## Claim C6 (getMetrics cacheSize) -/

/-- The state after one successful, cache-storing request from the ready
state: the cache holds exactly one entry. -/
def cachedState : ChatState :=
  (generateResponse defaultConfig id readyState (some "halo kucing") none {}
    (ModelOutcome.ok "Jawaban aman") 0 5 0).2

/-! ## Theorems -/

theorem alLookup_alInsert_self {α : Type} (l : List (String × α)) (k : String) (v : α) :
    alLookup (alInsert l k v) k = some v := by
  induction l with
  | nil => simp [alInsert, alLookup]
  | cons p rest ih =>
    by_cases h : p.1 = k
    · simp [alInsert, alLookup, h]
    · simp [alInsert, alLookup, h, ih]

theorem mem_alInsert {α : Type} {l : List (String × α)} {k : String} {v : α} {p : String × α}
    (h : p ∈ alInsert l k v) : p = (k, v) ∨ p ∈ l := by
  induction l with
  | nil =>
    simp only [alInsert, List.mem_singleton] at h
    exact Or.inl h
  | cons q rest ih =>
    by_cases hq : q.1 = k
    · simp only [alInsert, hq, if_pos, List.mem_cons] at h
      rcases h with h | h
      · exact Or.inl h
      · exact Or.inr (List.mem_cons_of_mem _ h)
    · simp only [alInsert, hq, if_neg, not_false_iff, List.mem_cons] at h
      rcases h with h | h
      · exact Or.inr (by simp [h])
      · rcases ih h with h | h
        · exact Or.inl h
        · exact Or.inr (List.mem_cons_of_mem _ h)

theorem mem_alErase {α : Type} {l : List (String × α)} {k : String} {p : String × α}
    (h : p ∈ alErase l k) : p ∈ l := by
  induction l with
  | nil => simp [alErase] at h
  | cons q rest ih =>
    by_cases hq : q.1 = k
    · simp only [alErase, hq, if_pos] at h
      exact List.mem_cons_of_mem _ h
    · simp only [alErase, hq, if_neg, not_false_iff, List.mem_cons] at h
      rcases h with h | h
      · exact List.mem_cons.mpr (Or.inl h)
      · exact List.mem_cons.mpr (Or.inr (ih h))

/-- If the first entry for `k` survives a `filter`, it is still the first entry
for `k` afterwards. -/
theorem alLookup_filter {α : Type} {l : List (String × α)} {k : String} {v : α}
    (pred : String × α → Bool)
    (h : alLookup l k = some v) (hp : pred (k, v) = true) :
    alLookup (l.filter pred) k = some v := by
  induction l with
  | nil => simp [alLookup] at h
  | cons q rest ih =>
    by_cases hq : q.1 = k
    · simp only [alLookup, hq, if_pos, Option.some.injEq] at h
      have hqkv : q = (k, v) := by
        cases q; simp_all
      subst hqkv
      simp [List.filter, hp, alLookup]
    · simp only [alLookup, hq, if_neg, not_false_iff] at h
      by_cases hkeep : pred q = true
      · simp [List.filter, hkeep, alLookup, hq, ih h]
      · simp only [Bool.not_eq_true] at hkeep
        simp [List.filter, hkeep, ih h]

/-! ## Claims C3 and C10 (InputValidator) -/

/-- C3 (counterexample): the input `"a  "` trims to a single character, yet
`validateInput` accepts it, because the length guard reads the raw, untrimmed
length (3).  This refutes the claim that every input whose *trimmed* length is
below 3 is rejected with the too-short message. -/
theorem validateInput_trimmed_short_accepted_cex :
    (jsTrim "a  ").data.length < 3 ∧
      (validateInput defaultConfig (some "a  ")).isValid = true ∧
      (validateInput defaultConfig (some "a  ")).errors = [] := by
  decide

/-- C3 (amended): for every non-empty string whose raw (untrimmed) length is
below 3 characters, `validateInput` reports `isValid = false` with the
too-short message in its error list; the guard reads the untrimmed length, so
strings that merely trim below 3 characters can still validate. -/
theorem validateInput_short_raw_length_invalid (cfg : Config) (s : String)
    (hne : s.data ≠ []) (hlen : s.data.length < 3) :
    (validateInput cfg (some s)).isValid = false ∧
      tooShortMessage ∈ (validateInput cfg (some s)).errors := by
  have htruthy : (!(s.data.isEmpty)) = true := by
    simp [List.isEmpty_iff, hne]
  have hlen2 : s.length < 3 := hlen
  have hmem : tooShortMessage ∈ (validateInput cfg (some s)).errors := by
    simp only [validateInput, htruthy]
    simp [hlen, hlen2]
  refine ⟨?_, hmem⟩
  have h2 : (validateInput cfg (some s)).errors.isEmpty = false := by
    cases hcase : (validateInput cfg (some s)).errors with
    | nil => exact absurd hcase (List.ne_nil_of_mem hmem)
    | cons a t => rfl
  exact h2

/-- C3 witness: the amended theorem applied at the concrete input `"ab"`. -/
theorem validateInput_short_raw_length_invalid_witness :
    (validateInput defaultConfig (some "ab")).isValid = false ∧
      tooShortMessage ∈ (validateInput defaultConfig (some "ab")).errors :=
  validateInput_short_raw_length_invalid defaultConfig "ab" (by decide) (by decide)

/-- C10: there is an input of length at least 3 consisting solely of denylisted
characters, matching no suspicious pattern, that `validateInput` accepts with
an *empty* sanitized string: validation can succeed while the text handed to
the rest of the pipeline is empty. -/
theorem validateInput_denylist_only_valid_empty_sanitized :
    ∃ s : String,
      3 ≤ s.data.length ∧
      (∀ c ∈ s.data, isXssChar c = true) ∧
      hasSuspicious s = false ∧
      (validateInput defaultConfig (some s)).isValid = true ∧
      (validateInput defaultConfig (some s)).sanitizedInput = some "" :=
  ⟨"((((", by decide⟩

/-! ## Claim C1 (MetricsCollector running average) -/

/-- C1 (code bug, evaluation at the failing input): the spec promises a
running mean over successful requests only, with failed requests leaving
`averageResponseTime` unchanged, and the success-side formula indeed yields
2000 for the latencies [1000, 2000, 3000].  But `recordRequest` applies the
mean update on failures too (reading the unchanged `successfulRequests` as the
divisor): after one success with latency 1000 (average 1000), recording a
*failed* request with latency 0 drags the average down to 0 instead of leaving
it at 1000. -/
theorem recordRequest_failed_changes_average :
    (recordRequest true
        (recordRequest true
          (recordRequest true metricsInit true 1000 false "normal")
          true 2000 false "normal")
        true 3000 false "normal").averageResponseTime = 2000 ∧
    (recordRequest true metricsInit true 1000 false "normal").averageResponseTime = 1000 ∧
    (recordRequest true
        (recordRequest true metricsInit true 1000 false "normal")
        false 0 false "normal").averageResponseTime = 0 := by
  norm_num [recordRequest, metricsInit,
    show ("normal" : String) ≠ "emergency" by decide,
    show ("normal" : String) ≠ "serious" by decide]

/-! ## Claim C7 (RateLimiter sliding window) -/

theorem sorted_headD_le {l : List Int} (hs : l.Sorted (· ≤ ·)) {t : Int} (ht : t ∈ l) :
    l.headD 0 ≤ t := by
  cases l with
  | nil => cases ht
  | cons a l2 =>
    rcases List.mem_cons.mp ht with h | h
    · subst h; simp
    · simpa using List.rel_of_sorted_cons hs t h

theorem repeatChecks_store (cfg : Config) (identifier : String) (t : Int)
    (hw : 0 < windowMsOf cfg) :
    ∀ k : Nat, k ≤ cfg.rateLimitRequests →
      (alLookup (repeatChecks cfg identifier t k) identifier).getD [] = List.replicate k t := by
  intro k
  induction k with
  | zero => simp [repeatChecks, alLookup]
  | succ n ih =>
    intro hk
    have hn : n ≤ cfg.rateLimitRequests := Nat.le_of_succ_le hk
    have hlt : n < cfg.rateLimitRequests := hk
    have hprune : pruneWindow (windowMsOf cfg) t (List.replicate n t) = List.replicate n t := by
      simp only [pruneWindow]
      refine List.filter_eq_self.mpr ?_
      intro a ha
      rw [List.eq_of_mem_replicate ha]
      simpa using hw
    simp only [repeatChecks, checkRateLimit, ih hn, hprune, List.length_replicate]
    rw [if_neg (by omega)]
    rw [alLookup_alInsert_self]
    simp [List.replicate_succ']

theorem repeatChecks_allowed (cfg : Config) (identifier : String) (t : Int)
    (hw : 0 < windowMsOf cfg) :
    ∀ k : Nat, k < cfg.rateLimitRequests →
      (checkRateLimit cfg (repeatChecks cfg identifier t k) identifier t).1.allowed = true := by
  intro k hk
  have hstore := repeatChecks_store cfg identifier t hw k (Nat.le_of_lt hk)
  have hprune : pruneWindow (windowMsOf cfg) t (List.replicate k t) = List.replicate k t := by
    simp only [pruneWindow]
    refine List.filter_eq_self.mpr ?_
    intro a ha
    rw [List.eq_of_mem_replicate ha]
    simpa using hw
  simp only [checkRateLimit, hstore, hprune, List.length_replicate]
  rw [if_neg (by omega)]

/-- C7: the per-check contract of `checkRateLimit` — pruning to the trailing
window, rejection without consuming quota once the pruned count reaches the
configured maximum (with `resetTime` the oldest surviving timestamp plus the
window), acceptance recording the current timestamp otherwise — together with
the window-exhaustion scenario: from an empty store, each of the first N
checks inside one window is accepted, the (N+1)-th is rejected, and a check
after the window has elapsed is accepted again. -/
theorem checkRateLimit_contract (cfg : Config) (store : List (String × List Int))
    (identifier : String) (now : Int)
    (hmax : 1 ≤ cfg.rateLimitRequests) (hw : 0 < windowMsOf cfg) :
    (∀ t ∈ pruneWindow (windowMsOf cfg) now ((alLookup store identifier).getD []),
        now - t < windowMsOf cfg) ∧
    ((pruneWindow (windowMsOf cfg) now ((alLookup store identifier).getD [])).length ≥
        cfg.rateLimitRequests →
      (checkRateLimit cfg store identifier now).1.allowed = false ∧
      (checkRateLimit cfg store identifier now).1.remaining = 0 ∧
      (checkRateLimit cfg store identifier now).2 =
        alInsert store identifier
          (pruneWindow (windowMsOf cfg) now ((alLookup store identifier).getD [])) ∧
      (checkRateLimit cfg store identifier now).1.resetTime =
        (pruneWindow (windowMsOf cfg) now ((alLookup store identifier).getD [])).headD 0 +
          windowMsOf cfg ∧
      (((alLookup store identifier).getD []).Sorted (· ≤ ·) →
        ∀ t ∈ pruneWindow (windowMsOf cfg) now ((alLookup store identifier).getD []),
          (pruneWindow (windowMsOf cfg) now ((alLookup store identifier).getD [])).headD 0 ≤ t)) ∧
    ((pruneWindow (windowMsOf cfg) now ((alLookup store identifier).getD [])).length <
        cfg.rateLimitRequests →
      (checkRateLimit cfg store identifier now).1.allowed = true ∧
      (checkRateLimit cfg store identifier now).2 =
        alInsert store identifier
          (pruneWindow (windowMsOf cfg) now ((alLookup store identifier).getD []) ++ [now]) ∧
      (checkRateLimit cfg store identifier now).1.remaining =
        (cfg.rateLimitRequests : Int) -
          (((pruneWindow (windowMsOf cfg) now ((alLookup store identifier).getD [])).length : Int) + 1) ∧
      (checkRateLimit cfg store identifier now).1.resetTime = now + windowMsOf cfg) ∧
    ((∀ k < cfg.rateLimitRequests,
        (checkRateLimit cfg (repeatChecks cfg identifier now k) identifier now).1.allowed = true) ∧
      (checkRateLimit cfg (repeatChecks cfg identifier now cfg.rateLimitRequests)
          identifier now).1.allowed = false ∧
      (checkRateLimit cfg
          (checkRateLimit cfg (repeatChecks cfg identifier now cfg.rateLimitRequests)
            identifier now).2
          identifier (now + windowMsOf cfg)).1.allowed = true) := by
  refine ⟨?_, ?_, ?_, ?_, ?_, ?_⟩
  · intro t ht
    simp only [pruneWindow, List.mem_filter, decide_eq_true_eq] at ht
    exact ht.2
  · intro h
    simp only [checkRateLimit]
    rw [if_pos h]
    refine ⟨rfl, rfl, rfl, rfl, ?_⟩
    intro hs t ht
    exact sorted_headD_le (List.Pairwise.filter _ hs) ht
  · intro h
    simp only [checkRateLimit]
    rw [if_neg (by omega)]
    exact ⟨rfl, rfl, rfl, rfl⟩
  · exact repeatChecks_allowed cfg identifier now hw
  · have hstore := repeatChecks_store cfg identifier now hw cfg.rateLimitRequests le_rfl
    have hprune : pruneWindow (windowMsOf cfg) now (List.replicate cfg.rateLimitRequests now) =
        List.replicate cfg.rateLimitRequests now := by
      simp only [pruneWindow]
      refine List.filter_eq_self.mpr ?_
      intro a ha
      rw [List.eq_of_mem_replicate ha]
      simpa using hw
    simp only [checkRateLimit, hstore, hprune, List.length_replicate]
    rw [if_pos le_rfl]
  · have hstore := repeatChecks_store cfg identifier now hw cfg.rateLimitRequests le_rfl
    have hprune : pruneWindow (windowMsOf cfg) now (List.replicate cfg.rateLimitRequests now) =
        List.replicate cfg.rateLimitRequests now := by
      simp only [pruneWindow]
      refine List.filter_eq_self.mpr ?_
      intro a ha
      rw [List.eq_of_mem_replicate ha]
      simpa using hw
    have hrej : (checkRateLimit cfg (repeatChecks cfg identifier now cfg.rateLimitRequests)
        identifier now).2 =
        alInsert (repeatChecks cfg identifier now cfg.rateLimitRequests) identifier
          (List.replicate cfg.rateLimitRequests now) := by
      simp only [checkRateLimit, hstore, hprune, List.length_replicate]
      rw [if_pos le_rfl]
    rw [hrej]
    have hlook : (alLookup
        (alInsert (repeatChecks cfg identifier now cfg.rateLimitRequests) identifier
          (List.replicate cfg.rateLimitRequests now)) identifier).getD [] =
        List.replicate cfg.rateLimitRequests now := by
      simp [alLookup_alInsert_self]
    have hprune2 : pruneWindow (windowMsOf cfg) (now + windowMsOf cfg)
        (List.replicate cfg.rateLimitRequests now) = [] := by
      simp only [pruneWindow]
      refine List.filter_eq_nil_iff.mpr ?_
      intro a ha
      rw [List.eq_of_mem_replicate ha]
      simp
    simp only [checkRateLimit, hlook, hprune2, List.length_nil]
    rw [if_neg (by omega)]

/-- C7 witness: with the default configuration (limit 100), the contract
applied from an empty store — projecting out the scenario conjuncts. -/
theorem checkRateLimit_contract_witness :
    (checkRateLimit defaultConfig
        (repeatChecks defaultConfig "user" 1 defaultConfig.rateLimitRequests) "user" 1).1.allowed
        = false ∧
    (checkRateLimit defaultConfig
        (checkRateLimit defaultConfig
          (repeatChecks defaultConfig "user" 1 defaultConfig.rateLimitRequests) "user" 1).2
        "user" (1 + windowMsOf defaultConfig)).1.allowed = true := by
  have h := checkRateLimit_contract defaultConfig [] "user" 1 (by decide) (by decide)
  exact ⟨h.2.2.2.2.1, h.2.2.2.2.2⟩

/-! ## Claim C8 (cache key determinism and round trip) -/

/-- C8: inputs with the same normalized form get the same cache key (for any
digest function), and — with caching enabled, a nonnegative TTL, and a nonzero
clock — a `get` immediately after a `set` for the same key returns the stored
value, from any cache state. -/
theorem cacheKey_deterministic_and_roundtrip (hash : String → String) (x y : String)
    (hxy : normalizeKey x = normalizeKey y)
    (cfg : Config) (cs : CacheState) (key : String) (v : Envelope) (now : Int)
    (henabled : cfg.cacheEnabled = true) (httl : 0 ≤ ttlMsOf cfg) (hnow : now ≠ 0) :
    generateCacheKey hash x = generateCacheKey hash y ∧
    (cacheGet cfg (cacheSet cfg cs key v now) key now).1 = some v := by
  constructor
  · simp [generateCacheKey, hxy]
  · have hts : alLookup (cacheSet cfg cs key v now).timestamps key = some now := by
      simp only [cacheSet, henabled]
      rw [if_neg (by simp)]
      split
      · exact alLookup_filter _ (alLookup_alInsert_self _ _ _) (by simp; omega)
      · exact alLookup_alInsert_self _ _ _
    have hcache : alLookup (cacheSet cfg cs key v now).cache key = some v := by
      simp only [cacheSet, henabled]
      rw [if_neg (by simp)]
      split
      · refine alLookup_filter _ (alLookup_alInsert_self _ _ _) ?_
        rw [alLookup_alInsert_self]
        simp
        omega
      · exact alLookup_alInsert_self _ _ _
    have httl2 : ¬ ((0 : Int) > ttlMsOf cfg) := by omega
    simp [cacheGet, henabled, hts, hcache, hnow, sub_self, httl2]

/-- C8 witness: two concrete inputs differing in case and whitespace, with the
default configuration, an empty cache, and the identity stand-in digest. -/
theorem cacheKey_deterministic_and_roundtrip_witness :
    generateCacheKey id "Halo  Kucing " = generateCacheKey id "halo kucing" ∧
    (cacheGet defaultConfig
        (cacheSet defaultConfig emptyCacheState "k" (createErrorResponse 0 0) 5) "k" 5).1 =
      some (createErrorResponse 0 0) :=
  cacheKey_deterministic_and_roundtrip id "Halo  Kucing " "halo kucing" (by decide)
    defaultConfig emptyCacheState "k" (createErrorResponse 0 0) 5
    (by decide) (by decide) (by decide)

/-! ## Claim C2 (metrics on failure paths) -/

theorem recordRequest_fail_counts (m : Metrics) (rt : ℚ) (c : Bool) (u : String) :
    (recordRequest true m false rt c u).totalRequests = m.totalRequests + 1 ∧
    (recordRequest true m false rt c u).failedRequests = m.failedRequests + 1 := by
  constructor <;> (unfold recordRequest; split_ifs <;> first | rfl | simp_all)

/-- C2 (counterexample): an initialized orchestrator receiving the invalid
input `"Hi"` returns the failure envelope, yet no metrics are recorded —
`totalRequests` and `failedRequests` stay at 0, refuting the claim that every
failing invocation increments them. -/
theorem generateResponse_validation_failure_skips_metrics_cex :
    (generateResponse defaultConfig id readyState (some "Hi") none {}
        ModelOutcome.timeout 0 5 0).1.success = false ∧
    (generateResponse defaultConfig id readyState (some "Hi") none {}
        ModelOutcome.timeout 0 5 0).2.metrics.totalRequests = 0 ∧
    (generateResponse defaultConfig id readyState (some "Hi") none {}
        ModelOutcome.timeout 0 5 0).2.metrics.failedRequests = 0 := by
  decide

/-- C2 (amended): among the failure paths of `generateResponse`, the
not-initialized path and the model-failure path (timeout or provider error)
record metrics exactly once with `success = false` before returning the
failure envelope, incrementing `totalRequests` and `failedRequests` by one
(when metrics are enabled); the rate-limit rejection and validation failure
paths return the failure envelope *without* recording metrics, leaving the
metrics record untouched. -/
theorem generateResponse_failure_metrics (cfg : Config) (hash : String → String)
    (S : ChatState) (msg sid : Option String) (opts : GenOptions)
    (outcome : ModelOutcome) (t0 t1 : Int) (errId : Nat)
    (hm : cfg.enableMetrics = true) :
    (S.initialized = false →
      (generateResponse cfg hash S msg sid opts outcome t0 t1 errId).1.success = false ∧
      (generateResponse cfg hash S msg sid opts outcome t0 t1 errId).2.metrics.totalRequests =
        S.metrics.totalRequests + 1 ∧
      (generateResponse cfg hash S msg sid opts outcome t0 t1 errId).2.metrics.failedRequests =
        S.metrics.failedRequests + 1) ∧
    (S.initialized = true →
      (checkRateLimit cfg S.rateStore (Option.getD sid "anonymous") t0).1.allowed = false →
      (generateResponse cfg hash S msg sid opts outcome t0 t1 errId).1.success = false ∧
      (generateResponse cfg hash S msg sid opts outcome t0 t1 errId).2.metrics = S.metrics) ∧
    (S.initialized = true →
      (checkRateLimit cfg S.rateStore (Option.getD sid "anonymous") t0).1.allowed = true →
      (validateInput cfg msg).isValid = false →
      (generateResponse cfg hash S msg sid opts outcome t0 t1 errId).1.success = false ∧
      (generateResponse cfg hash S msg sid opts outcome t0 t1 errId).2.metrics = S.metrics) ∧
    (S.initialized = true →
      (checkRateLimit cfg S.rateStore (Option.getD sid "anonymous") t0).1.allowed = true →
      (validateInput cfg msg).isValid = true →
      (outcome = ModelOutcome.timeout ∨ outcome = ModelOutcome.providerError) →
      ((cacheGet cfg S.cacheState
          (generateCacheKey hash ((validateInput cfg msg).sanitizedInput.getD "")) t0).1 = none ∨
        opts.bypassCache = true) →
      (generateResponse cfg hash S msg sid opts outcome t0 t1 errId).1.success = false ∧
      (generateResponse cfg hash S msg sid opts outcome t0 t1 errId).2.metrics.totalRequests =
        S.metrics.totalRequests + 1 ∧
      (generateResponse cfg hash S msg sid opts outcome t0 t1 errId).2.metrics.failedRequests =
        S.metrics.failedRequests + 1) := by
  refine ⟨?_, ?_, ?_, ?_⟩
  · intro hinit
    simp only [generateResponse, hinit, if_pos, createErrorResponse, hm]
    exact ⟨trivial, recordRequest_fail_counts S.metrics _ _ _⟩
  · intro hinit hrate
    simp [generateResponse, hinit, hrate, createErrorResponse]
  · intro hinit hrate hvalid
    simp [generateResponse, hinit, hrate, hvalid, createErrorResponse]
  · intro hinit hrate hvalid hout hmiss
    have hfin : ∀ S2 : ChatState, S2.metrics = S.metrics →
        (missPath cfg S2 ((validateInput cfg msg).sanitizedInput.getD "")
          (generateCacheKey hash ((validateInput cfg msg).sanitizedInput.getD ""))
          sid outcome t0 t1 errId).1.success = false ∧
        (missPath cfg S2 ((validateInput cfg msg).sanitizedInput.getD "")
          (generateCacheKey hash ((validateInput cfg msg).sanitizedInput.getD ""))
          sid outcome t0 t1 errId).2.metrics.totalRequests = S.metrics.totalRequests + 1 ∧
        (missPath cfg S2 ((validateInput cfg msg).sanitizedInput.getD "")
          (generateCacheKey hash ((validateInput cfg msg).sanitizedInput.getD ""))
          sid outcome t0 t1 errId).2.metrics.failedRequests = S.metrics.failedRequests + 1 := by
      intro S2 hS2
      rcases hout with h | h <;>
        (subst h
         simp only [missPath, createErrorResponse, hS2, hm]
         exact ⟨trivial, recordRequest_fail_counts S.metrics _ _ _⟩)
    rcases hmiss with hmiss | hbypass
    · simp only [generateResponse, hinit]
      simp only [hrate, hvalid]
      simp only [Bool.true_eq_false, if_neg, ite_false]
      simp only [hmiss]
      exact hfin _ rfl
    · cases hcase : (cacheGet cfg S.cacheState
          (generateCacheKey hash ((validateInput cfg msg).sanitizedInput.getD "")) t0).1 with
      | none =>
        simp only [generateResponse, hinit]
        simp only [hrate, hvalid]
        simp only [Bool.true_eq_false, if_neg, ite_false]
        simp only [hcase]
        exact hfin _ rfl
      | some cv =>
        simp only [generateResponse, hinit]
        simp only [hrate, hvalid]
        simp only [Bool.true_eq_false, if_neg, ite_false]
        simp only [hcase, hbypass]
        exact hfin _ rfl

/-- C2 witness: the amended theorem applied at a concrete validation-failure
input (`"Hi"` from the ready state). -/
theorem generateResponse_failure_metrics_witness :
    (generateResponse defaultConfig id readyState (some "Hi") none {}
        ModelOutcome.timeout 0 5 0).1.success = false ∧
    (generateResponse defaultConfig id readyState (some "Hi") none {}
        ModelOutcome.timeout 0 5 0).2.metrics = readyState.metrics := by
  have h := generateResponse_failure_metrics defaultConfig id readyState (some "Hi") none {}
    ModelOutcome.timeout 0 5 0 (by decide)
  exact h.2.2.1 (by decide) (by decide) (by decide)

theorem cacheGet_submap (cfg : Config) (cs : CacheState) (key : String) (now : Int) :
    cacheSubmap (cacheGet cfg cs key now).2 cs := by
  unfold cacheGet
  split
  · exact ⟨fun p hp => hp, fun p hp => hp⟩
  · split
    · exact ⟨fun p hp => hp, fun p hp => hp⟩
    · split
      · exact ⟨fun p hp => hp, fun p hp => hp⟩
      · split
        · exact ⟨fun p hp => mem_alErase hp, fun p hp => mem_alErase hp⟩
        · split
          · exact ⟨fun p hp => hp, fun p hp => hp⟩
          · exact ⟨fun p hp => hp, fun p hp => hp⟩

/-- C9 (counterexample): a request whose model call times out, issued when the
cached entry under the request's own key has expired, returns the failure
envelope but does *not* leave the cache exactly as it was: the expired entry
is removed by the lazy-expiry read during the cache lookup. -/
theorem generateResponse_model_failure_expiry_cex :
    (generateResponse defaultConfig id expiredState (some "halo kucing") none {}
        ModelOutcome.timeout 1800002 1800005 0).1.success = false ∧
    expiredState.cacheState.cache ≠ [] ∧
    (generateResponse defaultConfig id expiredState (some "halo kucing") none {}
        ModelOutcome.timeout 1800002 1800005 0).2.cacheState.cache = [] := by
  decide

/-- C9 (amended): when the model call fails (timeout or provider error) on a
request that reached it, `generateResponse` returns the generic failure
envelope, records the request as failed in the metrics, leaves the
conversation history unchanged, and neither adds nor replaces any cache
entry — though the cache lookup may have lazily removed an entry that had
already expired, so the final cache is a (possibly strict) sub-map of the
original. -/
theorem generateResponse_model_failure_frame (cfg : Config) (hash : String → String)
    (S : ChatState) (msg sid : Option String) (opts : GenOptions)
    (outcome : ModelOutcome) (t0 t1 : Int) (errId : Nat)
    (hinit : S.initialized = true)
    (hrate : (checkRateLimit cfg S.rateStore (Option.getD sid "anonymous") t0).1.allowed = true)
    (hvalid : (validateInput cfg msg).isValid = true)
    (hmiss : (cacheGet cfg S.cacheState
        (generateCacheKey hash ((validateInput cfg msg).sanitizedInput.getD "")) t0).1 = none ∨
      opts.bypassCache = true)
    (hout : outcome = ModelOutcome.timeout ∨ outcome = ModelOutcome.providerError) :
    (generateResponse cfg hash S msg sid opts outcome t0 t1 errId).1 =
      createErrorResponse t1 errId ∧
    (generateResponse cfg hash S msg sid opts outcome t0 t1 errId).2.conv = S.conv ∧
    (generateResponse cfg hash S msg sid opts outcome t0 t1 errId).2.metrics =
      recordRequest cfg.enableMetrics S.metrics false ((t1 - t0 : Int) : ℚ) false "normal" ∧
    cacheSubmap (generateResponse cfg hash S msg sid opts outcome t0 t1 errId).2.cacheState
      S.cacheState := by
  have hmissfin : ∀ (S2 : ChatState) (san key2 : String),
      (missPath cfg S2 san key2 sid outcome t0 t1 errId).1 = createErrorResponse t1 errId ∧
      (missPath cfg S2 san key2 sid outcome t0 t1 errId).2.conv = S2.conv ∧
      (missPath cfg S2 san key2 sid outcome t0 t1 errId).2.metrics =
        recordRequest cfg.enableMetrics S2.metrics false ((t1 - t0 : Int) : ℚ) false "normal" ∧
      (missPath cfg S2 san key2 sid outcome t0 t1 errId).2.cacheState = S2.cacheState := by
    intro S2 san key2
    rcases hout with h | h <;> (subst h; exact ⟨rfl, rfl, rfl, rfl⟩)
  have hsub := cacheGet_submap cfg S.cacheState
    (generateCacheKey hash ((validateInput cfg msg).sanitizedInput.getD "")) t0
  rcases hmiss with hmiss | hbypass
  · simp only [generateResponse, hinit]
    simp only [hrate, hvalid]
    simp only [Bool.true_eq_false, if_neg, ite_false]
    simp only [hmiss]
    refine ⟨(hmissfin _ _ _).1, ?_, ?_, ?_⟩
    · exact (hmissfin _ _ _).2.1
    · exact (hmissfin _ _ _).2.2.1
    · rw [(hmissfin _ _ _).2.2.2]
      exact hsub
  · cases hcase : (cacheGet cfg S.cacheState
        (generateCacheKey hash ((validateInput cfg msg).sanitizedInput.getD "")) t0).1 with
    | none =>
      simp only [generateResponse, hinit]
      simp only [hrate, hvalid]
      simp only [Bool.true_eq_false, if_neg, ite_false]
      simp only [hcase]
      refine ⟨(hmissfin _ _ _).1, ?_, ?_, ?_⟩
      · exact (hmissfin _ _ _).2.1
      · exact (hmissfin _ _ _).2.2.1
      · rw [(hmissfin _ _ _).2.2.2]
        exact hsub
    | some cv =>
      simp only [generateResponse, hinit]
      simp only [hrate, hvalid]
      simp only [Bool.true_eq_false, if_neg, ite_false]
      simp only [hcase, hbypass, eq_self_iff_true, if_true]
      refine ⟨(hmissfin _ _ _).1, ?_, ?_, ?_⟩
      · exact (hmissfin _ _ _).2.1
      · exact (hmissfin _ _ _).2.2.1
      · rw [(hmissfin _ _ _).2.2.2]
        exact hsub

/-- C9 witness: the amended theorem applied to a concrete timed-out request
from the ready state. -/
theorem generateResponse_model_failure_frame_witness :
    (generateResponse defaultConfig id readyState (some "halo kucing") none {}
        ModelOutcome.timeout 0 5 0).1 = createErrorResponse 5 0 ∧
    (generateResponse defaultConfig id readyState (some "halo kucing") none {}
        ModelOutcome.timeout 0 5 0).2.conv = readyState.conv := by
  have h := generateResponse_model_failure_frame defaultConfig id readyState
    (some "halo kucing") none {} ModelOutcome.timeout 0 5 0
    (by decide) (by decide) (by decide) (Or.inl (by decide)) (Or.inl rfl)
  exact ⟨h.1, h.2.1⟩

theorem cacheGet_preserves_noEmergency (cfg : Config) (cs : CacheState) (key : String)
    (now : Int) (h : noEmergencyCached cs) :
    noEmergencyCached (cacheGet cfg cs key now).2 := by
  have hsub := cacheGet_submap cfg cs key now
  intro p hp
  exact h p (hsub.1 p hp)

theorem cacheSet_preserves_noEmergency (cfg : Config) (cs : CacheState) (key : String)
    (v : Envelope) (now : Int) (hv : v.urgencyLevel ≠ some "emergency")
    (h : noEmergencyCached cs) :
    noEmergencyCached (cacheSet cfg cs key v now) := by
  unfold cacheSet
  split
  · exact h
  · have hins : noEmergencyCached ⟨alInsert cs.cache key v, alInsert cs.timestamps key now⟩ := by
      intro p hp
      rcases mem_alInsert hp with h1 | h1
      · rw [h1]; exact hv
      · exact h p h1
    dsimp only
    split
    · intro p hp
      exact hins p (List.mem_filter.mp hp).1
    · exact hins

theorem missPath_preserves_noEmergency (cfg : Config) (S : ChatState)
    (sanitized key : String) (sessionId : Option String) (outcome : ModelOutcome)
    (t0 t1 : Int) (errId : Nat) (h : noEmergencyCached S.cacheState) :
    noEmergencyCached (missPath cfg S sanitized key sessionId outcome t0 t1 errId).2.cacheState := by
  unfold missPath
  cases outcome with
  | ok g =>
    dsimp only
    split
    case isTrue hc =>
      refine cacheSet_preserves_noEmergency cfg S.cacheState key _ t1 ?_ h
      intro heq
      exact hc.1 (Option.some.inj heq)
    case isFalse => exact h
  | timeout => exact h
  | providerError => exact h

theorem generateResponse_preserves_noEmergency (cfg : Config) (hash : String → String)
    (S : ChatState) (msg sid : Option String) (opts : GenOptions)
    (outcome : ModelOutcome) (t0 t1 : Int) (errId : Nat)
    (h : noEmergencyCached S.cacheState) :
    noEmergencyCached
      (generateResponse cfg hash S msg sid opts outcome t0 t1 errId).2.cacheState := by
  have hget := cacheGet_preserves_noEmergency cfg S.cacheState
    (generateCacheKey hash ((validateInput cfg msg).sanitizedInput.getD "")) t0 h
  unfold generateResponse
  split
  · exact h
  · dsimp only
    split
    · exact h
    · split
      · exact h
      · split
        · split
          · exact missPath_preserves_noEmergency _ _ _ _ _ _ _ _ _ hget
          · exact hget
        · exact missPath_preserves_noEmergency _ _ _ _ _ _ _ _ _ hget

/-- C4: starting from any state whose cache holds no emergency-classified
entry (in particular the initial empty cache), no sequence of
`generateResponse` calls can ever put an emergency-classified response into
the cache: caching is skipped exactly when the detected urgency is emergency,
and every stored value carries a non-emergency urgency level. -/
theorem runRequests_no_emergency_cached (cfg : Config) (hash : String → String)
    (S : ChatState) (reqs : List RequestInput) (h : noEmergencyCached S.cacheState) :
    noEmergencyCached (runRequests cfg hash S reqs).cacheState := by
  induction reqs generalizing S with
  | nil => exact h
  | cons r rs ih =>
    exact ih _ (generateResponse_preserves_noEmergency cfg hash S r.msg r.sessionId r.opts
      r.outcome r.t0 r.t1 r.errId h)

/-- C4 witness: the invariant applied to a concrete two-request run (one
emergency input, one normal input) from the ready state. -/
theorem runRequests_no_emergency_cached_witness :
    noEmergencyCached
      (runRequests defaultConfig id readyState
        [⟨some "kucing saya muntah darah", some "sesi", {}, ModelOutcome.ok "Segera ke dokter hewan", 0, 5, 0⟩,
         ⟨some "halo kucing", some "sesi", {}, ModelOutcome.ok "Halo juga", 10, 15, 1⟩]).cacheState :=
  runRequests_no_emergency_cached defaultConfig id readyState _
    (by intro p hp; simp [readyState, emptyCacheState] at hp)

/-! ## Claim C5 (streaming envelope shape) -/

theorem formatResponse_streaming_none (t : Int) (r : String) (md : RespMeta) :
    (formatResponse t r md).streaming = none := by
  unfold formatResponse
  rcases md with ⟨u, c, rt, sid0, st⟩
  dsimp only
  rcases u with _ | u0 <;> rcases rt with _ | r0 <;> dsimp only <;> split_ifs <;> rfl

/-- C5 (counterexample): a concrete successful streaming request returns a
success envelope that carries *no* streaming marker, refuting the claim that
the streaming success envelope is the non-streaming one plus `streaming:
true`. -/
theorem streaming_envelope_no_marker_cex :
    (generateStreamingResponse defaultConfig readyState (some "halo kucing") none
        (StreamOutcome.chunks ["Halo juga!"]) 0 5 0).1.success = true ∧
    (generateStreamingResponse defaultConfig readyState (some "halo kucing") none
        (StreamOutcome.chunks ["Halo juga!"]) 0 5 0).1.streaming = none := by
  decide

/-- C5 (amended): every envelope returned by `generateStreamingResponse` on
success is built by the same formatter as the non-streaming success envelope
(hence has the same shape), but carries *no* streaming marker: the
`streaming: true` entry the orchestrator passes in the metadata is ignored by
`formatResponse`, which copies only `urgencyLevel`, `cached`, `responseTime`,
and the recommendation lists onto the envelope. -/
theorem streaming_success_envelope_shape (cfg : Config) (S : ChatState)
    (msg sid : Option String) (parts : List String) (t0 t1 : Int) (errId : Nat)
    (hinit : S.initialized = true)
    (hrate : (checkRateLimit cfg S.rateStore (Option.getD sid "anonymous") t0).1.allowed = true)
    (hvalid : (validateInput cfg msg).isValid = true) :
    (generateStreamingResponse cfg S msg sid (StreamOutcome.chunks parts) t0 t1 errId).1 =
      formatResponse t1
        (if concatChunks parts = "" then streamFallbackMessage else concatChunks parts)
        { urgencyLevel :=
            some (detectUrgency cfg ((validateInput cfg msg).sanitizedInput.getD ""))
          responseTime := some (t1 - t0), sessionId := sid, streaming := some true } ∧
    (∀ (t : Int) (r : String) (md : RespMeta), (formatResponse t r md).streaming = none) := by
  constructor
  · simp only [generateStreamingResponse, hinit]
    simp only [hrate, hvalid]
    simp only [Bool.true_eq_false, if_neg, ite_false]
  · exact formatResponse_streaming_none

/-- C5 witness: the amended theorem applied to a concrete streaming request
(the second conjunct instantiated at the metadata the streaming path uses). -/
theorem streaming_success_envelope_shape_witness :
    (formatResponse 5 "Halo juga!"
        { urgencyLevel := some "normal", responseTime := some 5,
          sessionId := none, streaming := some true }).streaming = none := by
  have h := streaming_success_envelope_shape defaultConfig readyState (some "halo kucing")
    none ["Halo juga!"] 0 5 0 (by decide) (by decide) (by decide)
  exact h.2 5 "Halo juga!"
    { urgencyLevel := some "normal", responseTime := some 5,
      sessionId := none, streaming := some true }

/-- C6 (code bug, evaluation at the failing input): after a successful request
has stored one cache entry, `getMetrics` still reports `cacheSize = 0`: the
source reads `CacheManager.cache?.size || 0`, but the `CacheManager` class has
no static `cache` property (the map is module-level in `utils.js`), so the
reported size is the constant 0 and never equals the number of cached
entries.  The rest of the snapshot (metrics spread, `activeConversations`,
`initialized`, timestamp) is as claimed. -/
theorem getMetrics_cacheSize_always_zero :
    cachedState.cacheState.cache.length = 1 ∧
    (getMetrics cachedState 10).cacheSize = 0 ∧
    (getMetrics cachedState 10).initialized = cachedState.initialized ∧
    (getMetrics cachedState 10).activeConversations = cachedState.conv.length ∧
    (getMetrics cachedState 10).timestamp = 10 := by
  refine ⟨by decide, rfl, rfl, rfl, rfl⟩
